import Mathlib

/-!
Shallow embedding of src/index.ts (matteopolak/simple-webserver):
a Fastify HTTP server over a MongoDB collection example.leaderboard
with two routes, GET /leaderboard and PUT /leaderboard, started by
an async bootstrap that first awaits the MongoDB connection.
-/

namespace SimpleWebserver

/-- A JavaScript number value: a finite numeric value, NaN, Infinity
or -Infinity.  Finite values are modelled by `Int` (every concrete score
in play is integral); the non-finite values are kept distinct because the
PUT validation admits them (`typeof` answers "number" for all of them). -/
inductive JSNum where
  | num (v : Int)
  | nan
  | posInf
  | negInf
deriving DecidableEq, Repr

/-- The order MongoDB uses when sorting on a numeric field (BSON
comparison): NaN compares below every number, then -Infinity, the
finite numbers, and Infinity on top.  `jleb a b` means `a ≤ b` as sort
keys. -/
def jleb : JSNum → JSNum → Bool
  | .nan, _ => true
  | _, .nan => false
  | .negInf, _ => true
  | _, .negInf => false
  | .num a, .num b => a ≤ b
  | .num _, .posInf => true
  | .posInf, .num _ => false
  | .posInf, .posInf => true

/-- Strict version of the sort-key order on JS numbers. -/
def jltb (a b : JSNum) : Bool := jleb a b && !(jleb b a)

/-- A JavaScript value as it can appear as a parsed request body or as a
field of one: null, undefined, a string, a number, a boolean, or an
object given by its (ordered) fields. -/
inductive JValue where
  | null
  | undefined
  | str (s : String)
  | num (n : JSNum)
  | bool (b : Bool)
  | obj (fields : List (String × JValue))

/-- Property lookup inside the field list of a JS object: the first field
with the requested key, undefined when absent. -/
def lookupField : List (String × JValue) → String → JValue
  | [], _ => .undefined
  | (k', v) :: rest, k => if k' = k then v else lookupField rest k

/-- Member access `v.k` in JS.  Returns `none` when the access throws a
TypeError (member access on null or undefined); on any other value it
yields the value of the field, undefined when the value has no such
field. -/
def member (v : JValue) (k : String) : Option JValue :=
  match v with
  | .null => none
  | .undefined => none
  | .obj fs => some (lookupField fs k)
  | _ => some .undefined

/-- Whether `typeof v` answers "string". -/
def isStringType : JValue → Bool
  | .str _ => true
  | _ => false

/-- Whether `typeof v` answers "number". -/
def isNumberType : JValue → Bool
  | .num _ => true
  | _ => false

/-- The string carried by a string value (never applied to anything
else: every use is guarded by `isStringType`). -/
def strVal : JValue → String
  | .str s => s
  | _ => ""

/-- The number carried by a numeric value (never applied to anything
else: every use is guarded by `isNumberType`). -/
def numVal : JValue → JSNum
  | .num n => n
  | _ => .nan

/-- The document shape stored in the leaderboard collection: the two
inserted fields plus the internal identifier `_id` that MongoDB attaches
to every stored document. -/
structure StoredDoc where
  oid : Nat
  name : String
  score : JSNum
deriving DecidableEq, Repr

/-- The client-visible shape declared as
`interface LeaderboardEntry { name: string; score: number }`, with the
internal identifier projected away. -/
structure LeaderboardEntry where
  name : String
  score : JSNum
deriving DecidableEq, Repr

/-- The projection `{ _id: 0 }` applied by the GET query: keep name
and score, drop the internal identifier. -/
def projectEntry (d : StoredDoc) : LeaderboardEntry :=
  { name := d.name, score := d.score }

/-- The collection state: stored documents in insertion order. -/
abbrev Store := List StoredDoc

/-- The write `collection.insertOne({ name, score })`: MongoDB appends
one new document holding exactly the given fields, attaching a fresh
internal identifier (modelled as the current size of the collection). -/
def insertOne (store : Store) (e : LeaderboardEntry) : Store :=
  store ++ [{ oid := store.length, name := e.name, score := e.score }]

/-- The ordering realising `.sort({ score: -1 })` on projected entries:
`scoreGE a b` holds when the score of `a` is at least the score of `b`
in the MongoDB sort-key order, so sorting by `scoreGE` lists scores
descending.  The relative order of equal scores is left to the store and
unspecified; the model fixes one stable realisation. -/
def scoreGE (a b : LeaderboardEntry) : Prop := jleb b.score a.score = true

instance : DecidableRel scoreGE := fun a b =>
  inferInstanceAs (Decidable (jleb b.score a.score = true))

/-- The reply of the GET handler: Fastify sends the returned object with
HTTP status 200, body `{ result: board }`. -/
structure GetReply where
  statusCode : Nat
  result : List LeaderboardEntry
deriving DecidableEq, Repr

/-- The GET /leaderboard handler:
`find({}, { projection: { _id: 0 } }).sort({ score: -1 }).limit(10)` —
all documents, projected to name and score, sorted by score
descending, truncated to the first 10; the store is only read. -/
def getHandler (store : Store) : GetReply × Store :=
  (⟨200, (List.insertionSort scoreGE (store.map projectEntry)).take 10⟩, store)

/-- The observable outcome of the PUT handler: the thrown
`{ statusCode: 400, error, message }` object (Fastify replies with that
status), the returned `{ statusCode: 200, message }` object (HTTP 200),
or an uncaught TypeError from dereferencing undefined. -/
inductive PutResult where
  | badRequest (statusCode : Nat) (error : String) (message : String)
  | success (statusCode : Nat) (message : String)
  | typeError
deriving DecidableEq, Repr

/-- The PUT /leaderboard handler.  The guard
`body === null || typeof body.name !== 'string' || typeof body.score !== 'number'`
throws the fixed 400 object; `body === null` is tested before any member
access, member access on an undefined body throws a TypeError, and the
score field is only read once the name check has passed (JS
short-circuit order).  On a passing body,
`insertOne({ name: body.name, score: body.score })` appends the two
fields unmodified and the handler returns the fixed 200 object. -/
def putHandler (body : JValue) (store : Store) : PutResult × Store :=
  match body with
  | .null => (.badRequest 400 "Bad Request" "Invalid body", store)
  | body =>
    match member body "name" with
    | none => (.typeError, store)
    | some nv =>
      if isStringType nv then
        match member body "score" with
        | none => (.typeError, store)
        | some sv =>
          if isNumberType sv then
            (.success 200 "Your score has been posted",
             insertOne store { name := strVal nv, score := numVal sv })
          else (.badRequest 400 "Bad Request" "Invalid body", store)
      else (.badRequest 400 "Bad Request" "Invalid body", store)

/-- A request body fails the PUT validation when it is null, or its
name field reads back a value that is not of string type, or its score
field reads back a value that is not of number type. -/
def invalidBody (body : JValue) : Prop :=
  body = JValue.null ∨
  (∃ nv, member body "name" = some nv ∧ isStringType nv = false) ∨
  (∃ sv, member body "score" = some sv ∧ isNumberType sv = false)

/-- The steps of the bootstrap IIFE, in the order the code can perform
them. -/
inductive BootEvent where
  | connectAttempt
  | connected
  | bindCollection
  | registerRoutes
  | listen (port : Nat)
deriving DecidableEq, Repr

instance : BEq BootEvent := instBEqOfDecidableEq

/-- The bootstrap IIFE: `await connection.connect()` runs first; if the
returned promise rejects, the async function aborts and nothing after
the await runs; otherwise the collection handle is bound, the two routes
registered, and `server.listen(2000, ...)` called. -/
def bootstrap (connectOk : Bool) : List BootEvent :=
  .connectAttempt ::
    (if connectOk then
      [.connected, .bindCollection, .registerRoutes, .listen 2000]
    else [])

/-- Does a bootstrap event start the HTTP listener? -/
def isListen : BootEvent → Bool
  | .listen _ => true
  | _ => false

/-! ### Order lemmas for the sort key -/

theorem jleb_total (a b : JSNum) : jleb a b = true ∨ jleb b a = true := by
  cases a <;> cases b <;> simp [jleb] <;> omega

theorem jleb_trans (a b c : JSNum) :
    jleb a b = true → jleb b c = true → jleb a c = true := by
  cases a <;> cases b <;> cases c <;> simp [jleb] <;> omega

theorem jleb_antisymm (a b : JSNum) :
    jleb a b = true → jleb b a = true → a = b := by
  cases a <;> cases b <;> simp [jleb] <;> omega

instance : IsTotal LeaderboardEntry scoreGE :=
  ⟨fun a b => (jleb_total b.score a.score).imp id id⟩

instance : IsTrans LeaderboardEntry scoreGE :=
  ⟨fun _ b _ hab hbc => jleb_trans _ b.score _ hbc hab⟩

/-! ### Characterisations of the PUT handler -/

theorem putHandler_obj (fs : List (String × JValue)) (store : Store) :
    putHandler (.obj fs) store =
      (if isStringType (lookupField fs "name") then
        if isNumberType (lookupField fs "score") then
          (.success 200 "Your score has been posted",
           insertOne store { name := strVal (lookupField fs "name"),
                             score := numVal (lookupField fs "score") })
        else (.badRequest 400 "Bad Request" "Invalid body", store)
      else (.badRequest 400 "Bad Request" "Invalid body", store)) := rfl

theorem putHandler_invalid (body : JValue) (store : Store) (h : invalidBody body) :
    putHandler body store = (.badRequest 400 "Bad Request" "Invalid body", store) := by
  cases body with
  | null => rfl
  | undefined =>
    exfalso
    rcases h with h | ⟨nv, hnv, _⟩ | ⟨sv, hsv, _⟩
    · exact JValue.noConfusion h
    · simp [member] at hnv
    · simp [member] at hsv
  | str s => rfl
  | num n => rfl
  | bool b => rfl
  | obj fs =>
    rw [putHandler_obj]
    rcases h with h | ⟨nv, hnv, hty⟩ | ⟨sv, hsv, hty⟩
    · exact JValue.noConfusion h
    · have he : lookupField fs "name" = nv := by simpa [member] using hnv
      subst he
      simp [hty]
    · have he : lookupField fs "score" = sv := by simpa [member] using hsv
      subst he
      cases hn : isStringType (lookupField fs "name") <;> simp [hn, hty]

/-- A small concrete store used to instantiate the universally
quantified theorems: the two entries of the worked example of the
specification. -/
def demoStore : Store := [⟨0, "Alice", .num 50⟩, ⟨1, "Bob", .num 90⟩]

/-! ### The claims -/

/-- C1: for every state of the store, GET /leaderboard answers HTTP 200
with body containing at most 10 entries, sorted by score descending
(each entry scores at least the next one), and every returned entry is
the projection of a stored document to its name and score fields, the
internal identifier excluded. -/
theorem c1_get_top10_sorted_projected (store : Store) :
    (getHandler store).1.statusCode = 200 ∧
    (getHandler store).1.result.length ≤ 10 ∧
    (∀ i (h : i + 1 < (getHandler store).1.result.length),
      jleb ((getHandler store).1.result.get ⟨i + 1, h⟩).score
        ((getHandler store).1.result.get ⟨i, Nat.lt_of_succ_lt h⟩).score = true) ∧
    ∀ e ∈ (getHandler store).1.result, ∃ d ∈ store, e = projectEntry d := by
  refine ⟨rfl, ?_, ?_, ?_⟩
  · exact List.length_take_le 10 _
  · intro i h
    have hs : List.Sorted scoreGE
        ((List.insertionSort scoreGE (store.map projectEntry)).take 10) :=
      (List.sorted_insertionSort scoreGE (store.map projectEntry)).sublist
        (List.take_sublist _ _)
    exact hs.rel_get_of_lt (Nat.lt_succ_self i)
  · intro e he
    have h1 : e ∈ List.insertionSort scoreGE (store.map projectEntry) :=
      (List.take_sublist _ _).mem he
    have h2 : e ∈ store.map projectEntry :=
      (List.perm_insertionSort _ _).mem_iff.mp h1
    rcases List.mem_map.mp h2 with ⟨d, hd, hde⟩
    exact ⟨d, hd, hde.symm⟩

theorem c1_witness :
    jleb ((getHandler demoStore).1.result.get ⟨1, by decide⟩).score
        ((getHandler demoStore).1.result.get ⟨0, by decide⟩).score = true ∧
    ∃ d ∈ demoStore, (⟨"Bob", JSNum.num 90⟩ : LeaderboardEntry) = projectEntry d := by
  refine ⟨(c1_get_top10_sorted_projected demoStore).2.2.1 0 (by decide), ?_⟩
  exact (c1_get_top10_sorted_projected demoStore).2.2.2 ⟨"Bob", JSNum.num 90⟩ (by decide)

/-- C2: for every request body that is null, or whose name field is not
of string type, or whose score field is not of number type, the PUT
handler answers exactly the fixed 400 payload. -/
theorem c2_put_invalid_body_400 (body : JValue) (store : Store)
    (h : invalidBody body) :
    putHandler body store =
      (PutResult.badRequest 400 "Bad Request" "Invalid body", store) :=
  putHandler_invalid body store h

theorem c2_witness :
    putHandler (.obj [("name", JValue.str "X")]) demoStore =
      (PutResult.badRequest 400 "Bad Request" "Invalid body", demoStore) :=
  c2_put_invalid_body_400 _ _ (Or.inr (Or.inr ⟨JValue.undefined, rfl, rfl⟩))

/-- C3: for every request body that fails the PUT validation, the handler
performs no write: the stored collection after the request equals the
collection before it. -/
theorem c3_put_invalid_no_write (body : JValue) (store : Store)
    (h : invalidBody body) :
    (putHandler body store).2 = store := by
  rw [putHandler_invalid body store h]

theorem c3_witness : (putHandler JValue.null demoStore).2 = demoStore :=
  c3_put_invalid_no_write JValue.null demoStore (Or.inl rfl)

/-- C4: for every request body whose name field is of string type and
whose score field is of number type, the PUT handler appends exactly one
new document holding those two field values unmodified (extra fields of
the body discarded, no trimming), and answers the fixed 200 payload. -/
theorem c4_put_valid_inserts (body : JValue) (store : Store) (n : String) (s : JSNum)
    (hn : member body "name" = some (JValue.str n))
    (hs : member body "score" = some (JValue.num s)) :
    putHandler body store =
      (PutResult.success 200 "Your score has been posted",
       store ++ [{ oid := store.length, name := n, score := s }]) := by
  cases body with
  | null => exact absurd hn (by simp [member])
  | undefined => exact absurd hn (by simp [member])
  | str t => exact absurd hn (by simp [member])
  | num m => exact absurd hn (by simp [member])
  | bool b => exact absurd hn (by simp [member])
  | obj fs =>
    have hn' : lookupField fs "name" = JValue.str n := by simpa [member] using hn
    have hs' : lookupField fs "score" = JValue.num s := by simpa [member] using hs
    rw [putHandler_obj, hn', hs']
    simp [isStringType, isNumberType, strVal, numVal, insertOne]

/-- A submission body carrying an untrimmed name, a negative score and
an extra field. -/
def extraFieldBody : JValue :=
  .obj [("name", .str " Alice "), ("score", .num (.num (-5))), ("extra", .bool true)]

theorem c4_witness :
    putHandler extraFieldBody demoStore =
      (PutResult.success 200 "Your score has been posted",
       demoStore ++ [{ oid := demoStore.length, name := " Alice ",
                       score := JSNum.num (-5) }]) :=
  c4_put_valid_inserts extraFieldBody demoStore " Alice " (JSNum.num (-5)) rfl rfl

/-- C5: when the store holds 15 entries with pairwise distinct scores,
GET returns exactly 10 entries and they are exactly the 10 highest: the
returned entries together with the left-out rest permute the whole
projected store, and every left-out entry scores strictly below every
returned one. -/
theorem c5_fifteen_distinct_returns_top_ten (store : Store)
    (hlen : store.length = 15)
    (hnd : (store.map StoredDoc.score).Nodup) :
    (getHandler store).1.result.length = 10 ∧
    ∃ rest : List LeaderboardEntry,
      ((getHandler store).1.result ++ rest).Perm (store.map projectEntry) ∧
      ∀ e ∈ (getHandler store).1.result, ∀ r ∈ rest,
        jltb r.score e.score = true := by
  have hperm : (List.insertionSort scoreGE (store.map projectEntry)).Perm
      (store.map projectEntry) := List.perm_insertionSort _ _
  have hlen2 : (List.insertionSort scoreGE (store.map projectEntry)).length = 15 := by
    rw [hperm.length_eq, List.length_map, hlen]
  constructor
  · show ((List.insertionSort scoreGE (store.map projectEntry)).take 10).length = 10
    rw [List.length_take, hlen2]
    rfl
  · refine ⟨(List.insertionSort scoreGE (store.map projectEntry)).drop 10, ?_, ?_⟩
    · show (((List.insertionSort scoreGE (store.map projectEntry)).take 10) ++
        ((List.insertionSort scoreGE (store.map projectEntry)).drop 10)).Perm _
      rw [List.take_append_drop]
      exact hperm
    · intro e he r hr
      have hsorted : List.Pairwise scoreGE
          (((List.insertionSort scoreGE (store.map projectEntry)).take 10) ++
           ((List.insertionSort scoreGE (store.map projectEntry)).drop 10)) := by
        rw [List.take_append_drop]
        exact List.sorted_insertionSort scoreGE (store.map projectEntry)
      have hge : scoreGE e r := (List.pairwise_append.mp hsorted).2.2 e he r hr
      have hscoreperm : ((List.insertionSort scoreGE (store.map projectEntry)).map
          LeaderboardEntry.score).Perm (store.map StoredDoc.score) := by
        have h1 := hperm.map LeaderboardEntry.score
        simpa [List.map_map, projectEntry, Function.comp] using h1
      have hscoresnd : (((List.insertionSort scoreGE (store.map projectEntry)).take 10).map
            LeaderboardEntry.score ++
          ((List.insertionSort scoreGE (store.map projectEntry)).drop 10).map
            LeaderboardEntry.score).Nodup := by
        rw [← List.map_append, List.take_append_drop]
        exact (hscoreperm.nodup_iff).mpr hnd
      have hdisj := (List.nodup_append.mp hscoresnd).2.2
      have hne : e.score ≠ r.score := by
        intro hEq
        exact hdisj (List.mem_map_of_mem _ he) (hEq ▸ List.mem_map_of_mem _ hr)
      have h2 : jleb e.score r.score = false := by
        cases h3 : jleb e.score r.score with
        | false => rfl
        | true => exact absurd (jleb_antisymm _ _ h3 hge) hne
      simp [jltb, h2]
      exact hge

/-- A store of 15 documents with pairwise distinct scores. -/
def bigStore : Store :=
  [⟨0, "a", .num 3⟩, ⟨1, "b", .num 14⟩, ⟨2, "c", .num 1⟩, ⟨3, "d", .num 9⟩,
   ⟨4, "e", .num 7⟩, ⟨5, "f", .num 12⟩, ⟨6, "g", .num 0⟩, ⟨7, "h", .num 5⟩,
   ⟨8, "i", .num 11⟩, ⟨9, "j", .num 2⟩, ⟨10, "k", .num 8⟩, ⟨11, "l", .num 13⟩,
   ⟨12, "m", .num 4⟩, ⟨13, "n", .num 10⟩, ⟨14, "o", .num 6⟩]

theorem c5_witness :
    (getHandler bigStore).1.result.length = 10 ∧
    ∃ rest : List LeaderboardEntry,
      ((getHandler bigStore).1.result ++ rest).Perm (bigStore.map projectEntry) ∧
      ∀ e ∈ (getHandler bigStore).1.result, ∀ r ∈ rest,
        jltb r.score e.score = true :=
  c5_fifteen_distinct_returns_top_ten bigStore (by decide) (by decide)

/-- C6: when the body delivered to the PUT handler is undefined rather
than null, the guard dereferences the undefined body and the handler
ends in a thrown TypeError, not in the fixed 400 payload. -/
theorem c6_undefined_body_type_error (store : Store) :
    putHandler JValue.undefined store = (PutResult.typeError, store) ∧
    PutResult.typeError ≠
      PutResult.badRequest 400 "Bad Request" "Invalid body" :=
  ⟨rfl, by decide⟩

/-- C7: the GET handler is read-only: for every state of the store,
handling a GET request leaves the stored collection unchanged. -/
theorem c7_get_read_only (store : Store) : (getHandler store).2 = store := rfl

/-- C8: GET is idempotent: a second GET run on the store state left by a
first GET, with no intervening writes, returns the identical reply. -/
theorem c8_get_idempotent (store : Store) :
    (getHandler ((getHandler store).2)).1 = (getHandler store).1 := rfl

/-- C9: the PUT validation performs no range, finiteness or length
check: every body whose name field holds any string (the empty string
included) and whose score field holds any number (NaN and the two
infinities included) passes validation, is inserted unmodified, and the
handler answers HTTP 200. -/
theorem c9_no_range_or_length_checks (n : String) (s : JSNum) (store : Store) :
    putHandler (JValue.obj [("name", JValue.str n), ("score", JValue.num s)]) store =
      (PutResult.success 200 "Your score has been posted",
       insertOne store { name := n, score := s }) := rfl

/-- C10: bootstrap ordering: on the failure path no listen step ever
runs, and on the success path the connection step precedes the binding
of the collection handle, which precedes listening on port 2000. -/
theorem c10_bootstrap_order :
    (bootstrap false).all (fun e => !(isListen e)) = true ∧
    BootEvent.listen 2000 ∈ bootstrap true ∧
    List.indexOf BootEvent.connectAttempt (bootstrap true) <
      List.indexOf BootEvent.connected (bootstrap true) ∧
    List.indexOf BootEvent.connected (bootstrap true) <
      List.indexOf BootEvent.bindCollection (bootstrap true) ∧
    List.indexOf BootEvent.bindCollection (bootstrap true) <
      List.indexOf (BootEvent.listen 2000) (bootstrap true) := by decide

end SimpleWebserver
